import Mathlib

/-!
Shallow embedding of the scraper-agent repository (TypeScript sources:
the tools module with `callFunction`, the `ScraperAgent` class with
`doTask` / `cleanup` / `setMaxAttempts` / `overridePage`, and `utils.ts`).

The external collaborators are modelled as oracles:
* the Playwright page is a `PageOps` record whose operations return
  `Except String` values — `Except.error e` models a rejected promise
  carrying the stringified error `e`;
* the Gemini chat is a function from the list of messages sent so far to
  the next reply, capturing that `chat.sendMessage` is stateful and that
  each reply may depend on the whole conversation;
* inside `doTask` the dispatcher boundary is a function
  `dispatch : page → name → params → Except String JObj`, matching the
  `try/catch` around `callFunction` in the source (the repository
  instantiates it with `callFunction`, which is embedded separately).

The `while (attempts < this.maxAttempts)` loop is embedded as a
fuel-indexed recursion: `doTask` passes `maxAttempts.toNat` as fuel and
the loop re-checks the real condition `attempts < maxAttempts` at every
step, so the fuel is exact — every recursive step increments `attempts`
by one, hence the fuel can never run out before the condition fails.
-/

namespace Scraper

/-- A JSON-ish primitive value appearing in an action result object. -/
inductive JVal where
  | s (v : String)
  | b (v : Bool)
deriving DecidableEq

/-- An action result object: the ordered key-value pairs of the object
literal the TypeScript helper returns. -/
abbrev JObj := List (String × JVal)

/-- Field access on a result object, first binding wins (the literals in the
source never repeat a key). -/
def JObj.lookup (o : JObj) (k : String) : Option JVal :=
  (o.find? (fun p => p.1 == k)).map (fun p => p.2)

/-- The model-provided arguments of a function call, a string-to-string map
(the parameter schemas in the source declare only string fields). -/
abbrev Params := List (String × String)

/-- Property access `functionParams.k`; a missing key is `undefined`. -/
def getParam (p : Params) (k : String) : Option String :=
  (p.find? (fun q => q.1 == k)).map (fun q => q.2)

/-- Oracle for the Playwright page used by `callFunction`. Each field models
one awaited page operation; arguments are `Option String` because a missing
parameter reaches the page API as `undefined`. `content` returns an
`Option String` because the source guards it with an or-empty fallback. -/
structure PageOps where
  goto : Option String → Except String Unit
  waitForNetworkIdle : Except String Unit
  content : Except String (Option String)
  click : Option String → Except String Unit
  fill : Option String → Option String → Except String Unit
  isVisible : Option String → Except String Bool
  url : Except String String
  screenshot : Option String → Except String Unit
  keyPress : Option String → Except String Unit

/-- The `callGoto` helper: navigate, wait for network idle, read the page
content; any rejection inside the try block yields the failure object. -/
def callGoto (page : PageOps) (url : Option String) : JObj :=
  match (do
      page.goto url
      page.waitForNetworkIdle
      page.content : Except String (Option String)) with
  | .ok html => [("success", JVal.b true), ("html", JVal.s (html.getD ""))]
  | .error err => [("success", JVal.b false), ("html", JVal.s ""), ("error", JVal.s err)]

/-- The `callClick` helper. -/
def callClick (page : PageOps) (selector : Option String) : JObj :=
  match page.click selector with
  | .ok _ => [("success", JVal.b true)]
  | .error err => [("success", JVal.b false), ("error", JVal.s err)]

/-- The `callType` helper. -/
def callType (page : PageOps) (selector text : Option String) : JObj :=
  match page.fill selector text with
  | .ok _ => [("success", JVal.b true)]
  | .error err => [("success", JVal.b false), ("error", JVal.s err)]

/-- The `callCheckSelector` helper. -/
def callCheckSelector (page : PageOps) (selector : Option String) : JObj :=
  match page.isVisible selector with
  | .ok v => [("success", JVal.b true), ("isVisible", JVal.b v)]
  | .error err =>
    [("success", JVal.b false), ("isVisible", JVal.b false), ("error", JVal.s err)]

/-- The `callGetHtml` helper. -/
def callGetHtml (page : PageOps) : JObj :=
  match page.content with
  | .ok html => [("success", JVal.b true), ("html", JVal.s (html.getD ""))]
  | .error err => [("success", JVal.b false), ("html", JVal.s ""), ("error", JVal.s err)]

/-- The `callCheckCurrentUrl` helper. -/
def callCheckCurrentUrl (page : PageOps) : JObj :=
  match page.url with
  | .ok u => [("success", JVal.b true), ("url", JVal.s u)]
  | .error err => [("success", JVal.b false), ("url", JVal.s ""), ("error", JVal.s err)]

/-- The `callScreenshot` helper; its catch clause drops the error detail. -/
def callScreenshot (page : PageOps) (path : Option String) : JObj :=
  match page.screenshot path with
  | .ok _ => [("success", JVal.b true)]
  | .error _ => [("success", JVal.b false)]

/-- The `callKeyPress` helper. -/
def callKeyPress (page : PageOps) (key : Option String) : JObj :=
  match page.keyPress key with
  | .ok _ => [("success", JVal.b true)]
  | .error err => [("success", JVal.b false), ("error", JVal.s err)]

/-- The dispatcher `callFunction` of the tools module: a switch on the action
name, falling through to the not-found object. The TypeScript function is
async, so its codomain is `Except String JObj` with `Except.error` modelling
a rejected promise; every arm resolves (the per-action helpers catch
internally and the fall-through returns a plain object). -/
def callFunction (page : PageOps) (functionName : String) (functionParams : Params) :
    Except String JObj :=
  match functionName with
  | "goto" => .ok (callGoto page (getParam functionParams "url"))
  | "click" => .ok (callClick page (getParam functionParams "selector"))
  | "type" =>
    .ok (callType page (getParam functionParams "selector") (getParam functionParams "text"))
  | "checkSelector" => .ok (callCheckSelector page (getParam functionParams "selector"))
  | "getHtml" => .ok (callGetHtml page)
  | "checkCurrentUrl" => .ok (callCheckCurrentUrl page)
  | "screenshot" => .ok (callScreenshot page (getParam functionParams "path"))
  | "keyPress" => .ok (callKeyPress page (getParam functionParams "key"))
  | _ => .ok [("success", JVal.b false), ("message", JVal.s "Function not found")]

/-- The case labels of the switch in `callFunction`. -/
def recognizedNames : List String :=
  ["goto", "click", "type", "checkSelector", "getHtml", "checkCurrentUrl",
   "screenshot", "keyPress"]

/-- The fall-through value of `callFunction` for an unrecognized name. -/
def notFoundResult : JObj :=
  [("success", JVal.b false), ("message", JVal.s "Function not found")]

/-- One function call of a model reply; `name` and `args` are optional
because the SDK types them as possibly undefined. -/
structure FnCall where
  name : Option String
  args : Option Params
deriving DecidableEq

/-- A model reply: `text` is the SDK convenience accessor the method
returns at the end, `candText` is the text assembled from the candidate
parts for logging, `functionCalls` is the list of requested actions
(`undefined` and the empty list are merged, the source only tests
`!functionCalls?.length`). -/
structure Reply where
  text : Option String
  candText : Option String
  functionCalls : List FnCall
deriving DecidableEq

/-- A message sent into the chat: plain text or a function-response
envelope carrying the action name exactly as it appeared on the call. -/
inductive Message where
  | text (s : String)
  | functionResponse (name : Option String) (response : JObj)
deriving DecidableEq

/-- One transcript entry (console plus markdown sink, formatting dropped). -/
inductive LogEvent where
  | taskStarted (task : String)
  | agentResponse (text : String)
  | system (msg : String)
  | functionCall (name : String) (params : Params)
  | md (msg : String)
  | taskCompleted (attempts maxAttempts : Int)
deriving DecidableEq

/-- The external collaborators of `doTask`: the chat (next reply as a
function of all messages sent so far), the dispatcher boundary, and the
browser launch performed lazily by the initialization step. -/
structure Env where
  chat : List Message → Reply
  dispatch : Nat → String → Params → Except String JObj
  launchId : Nat
  newPageId : Nat

/-- The mutable fields of the `ScraperAgent` object that the embedded
methods touch: the page and browser handles (as identifiers) and the
iteration budget. -/
structure AgentState where
  page : Option Nat
  browser : Option Nat
  maxAttempts : Int
deriving DecidableEq

/-- The constructor: an optionally injected page, no browser, and the
default budget of 50. -/
def mkAgent (page : Option Nat) : AgentState :=
  { page := page, browser := none, maxAttempts := 50 }

/-- The `setMaxAttempts` method. -/
def setMaxAttempts (maxAttempts : Int) (a : AgentState) : AgentState :=
  { a with maxAttempts := maxAttempts }

/-- The `overridePage` method. -/
def overridePage (page : Nat) (a : AgentState) : AgentState :=
  { a with page := some page }

/-- The private `initialize` method: when no page is present, launch a
browser and take a fresh page from it. -/
def initializeAgent (env : Env) (a : AgentState) : AgentState :=
  if a.page.isNone then
    { a with browser := some env.launchId, page := some env.newPageId }
  else a

/-- The `cleanup` method: when a browser is held, close it (the returned
list records the identifiers of closed browsers) and null the field. -/
def cleanup (a : AgentState) : AgentState × List Nat :=
  match a.browser with
  | some b => ({ a with browser := none }, [b])
  | none => (a, [])

/-- The guard `!functionName || !functionParams` on one function call: the
name is missing or the empty string (falsy), or the args are missing. -/
def isMissing (c : FnCall) : Bool :=
  c.name.getD "" == "" || c.args.isNone

/-- The loop-local mutable state of `doTask`: the current reply, the
messages sent into the chat so far, and the transcript. -/
structure LoopSt where
  response : Reply
  sent : List Message
  transcript : List LogEvent
deriving DecidableEq

/-- The diagnostic logged for a call with missing name or parameters. -/
def invalidCallMsg : String := "Invalid function call - missing name or parameters"

/-- The plain-text diagnostic sent to the chat when dispatch raises. -/
def errorMsgFor (functionName err : String) : String :=
  "Error calling function " ++ functionName ++ ": " ++ err

/-- `chat.sendMessage`: append the message and read the next reply. -/
def sendMessage (env : Env) (st : LoopSt) (m : Message) : LoopSt :=
  let sent := st.sent ++ [m]
  { st with sent := sent, response := env.chat sent }

/-- The `for (const call of functionCalls)` body of `doTask`: an invalid
call logs a diagnostic and stops the batch; otherwise the call is logged,
dispatched under the caught-failure boundary, and either the result is sent
back as a function response or the raised error is sent back as plain text;
either way the next reply becomes current and the batch continues. -/
def processCalls (env : Env) (page : Nat) : List FnCall → LoopSt → LoopSt
  | [], st => st
  | c :: rest, st =>
    if isMissing c then
      { st with transcript := st.transcript ++ [LogEvent.system invalidCallMsg] }
    else
      let functionName := c.name.getD ""
      let functionParams := c.args.getD []
      let st := { st with transcript :=
        st.transcript ++ [LogEvent.functionCall functionName functionParams] }
      match env.dispatch page functionName functionParams with
      | .ok result =>
        let st := { st with transcript := st.transcript ++
          [LogEvent.md ("Function " ++ functionName ++ " completed successfully")] }
        processCalls env page rest (sendMessage env st (Message.functionResponse c.name result))
      | .error err =>
        let msg := errorMsgFor functionName err
        let st := { st with transcript := st.transcript ++ [LogEvent.md msg] }
        processCalls env page rest (sendMessage env st (Message.text msg))

/-- Model of `String.prototype.trim`: drop whitespace from both ends
(structurally recursive so that concrete runs reduce). -/
def jsTrim (s : String) : String :=
  ⟨((s.data.dropWhile Char.isWhitespace).reverse.dropWhile Char.isWhitespace).reverse⟩

/-- The top-of-body logging of the candidate text, performed only when the
text is present and not whitespace. -/
def logCand (st : LoopSt) : LoopSt :=
  match st.response.candText with
  | some t =>
    if jsTrim t == "" then st
    else { st with transcript := st.transcript ++ [LogEvent.agentResponse t] }
  | none => st

/-- The break message when a reply holds no function calls. -/
def noCallsMsg : String := "No function calls found - task may be complete"

/-- The non-empty-batch part of the loop body: log the batch size, then run
the batch. -/
def loopStep (env : Env) (page : Nat) (st : LoopSt) : LoopSt :=
  processCalls env page st.response.functionCalls
    { st with transcript := st.transcript ++
      [LogEvent.system ("Processing " ++ toString st.response.functionCalls.length
        ++ " function call(s)")] }

/-- What the while loop of `doTask` produces: the final value of the
`attempts` counter, the final loop state, the number of times the loop body
was entered, and whether the loop exited through the no-function-calls
break. -/
structure LoopOut where
  attempts : Int
  st : LoopSt
  iters : Nat
  brokeEmpty : Bool
deriving DecidableEq

/-- The `while (attempts < this.maxAttempts)` loop of `doTask`. The fuel
argument is `maxAttempts.toNat` at the call site; the real condition is
re-checked each step and `attempts` rises by one per recursive step, so the
fuel is never exhausted while the condition still holds. -/
def loop (env : Env) (page : Nat) (maxAttempts : Int) :
    Nat → Int → LoopSt → LoopOut
  | 0, attempts, st => ⟨attempts, st, 0, false⟩
  | fuel + 1, attempts, st =>
    if attempts < maxAttempts then
      let st := logCand st
      if st.response.functionCalls.isEmpty then
        ⟨attempts, { st with transcript := st.transcript ++ [LogEvent.system noCallsMsg] },
          1, true⟩
      else
        let out := loop env page maxAttempts fuel (attempts + 1) (loopStep env page st)
        { out with iters := out.iters + 1 }
    else ⟨attempts, st, 0, false⟩

/-- What `doTask` returns and the observable effects it had: the returned
text, the final counter, the body-entry count, the break flag, the messages
sent into the chat, and the transcript. -/
structure DoTaskOut where
  result : Option String
  attempts : Int
  iters : Nat
  brokeEmpty : Bool
  sent : List Message
  transcript : List LogEvent
deriving DecidableEq

/-- The budget-exhaustion notice. -/
def maxReachedMsg (maxAttempts : Int) : String :=
  "Max attempts reached (" ++ toString maxAttempts ++ ")"

/-- The `doTask` method: lazy page initialization (with the guard that
throws when no page could be obtained), the task-started log, the first
`sendMessage` carrying the task, the bounded loop, and the closing logs.
`Except.error` models the thrown error; the pair carries the updated agent
fields alongside the outcome. -/
def doTask (env : Env) (a : AgentState) (task : String) :
    AgentState × Except String DoTaskOut :=
  let a := if a.page.isNone then initializeAgent env a else a
  match a.page with
  | none => (a, Except.error "Failed to initialize page")
  | some page =>
    let sent := [Message.text task]
    let st0 : LoopSt :=
      { response := env.chat sent, sent := sent,
        transcript := [LogEvent.taskStarted task] }
    let out := loop env page a.maxAttempts a.maxAttempts.toNat 0 st0
    let transcript :=
      out.st.transcript ++
      (if out.attempts = a.maxAttempts then [LogEvent.system (maxReachedMsg a.maxAttempts)]
       else []) ++
      [LogEvent.taskCompleted out.attempts a.maxAttempts]
    (a, Except.ok
      { result := out.st.response.text
        attempts := out.attempts
        iters := out.iters
        brokeEmpty := out.brokeEmpty
        sent := out.st.sent
        transcript := transcript })

/-- The returned text of a `doTask` outcome (none when it threw). -/
def resultOf : Except String DoTaskOut → Option String
  | .ok o => o.result
  | .error _ => none

/-- The final counter of a `doTask` outcome (zero when it threw: the loop
was never reached). -/
def attemptsOf : Except String DoTaskOut → Int
  | .ok o => o.attempts
  | .error _ => 0

/-- The body-entry count of a `doTask` outcome (zero when it threw). -/
def itersOf : Except String DoTaskOut → Nat
  | .ok o => o.iters
  | .error _ => 0

/-- The messages a `doTask` outcome sent into the chat. -/
def sentOf : Except String DoTaskOut → List Message
  | .ok o => o.sent
  | .error _ => []

/-! Concrete fixtures used by counterexamples and witnesses. -/

/-- A reply with text and no function calls. -/
def reply0 : Reply := { text := some "hi", candText := none, functionCalls := [] }

/-- An environment whose model always answers with no function calls. -/
def env2 : Env :=
  { chat := fun _ => reply0, dispatch := fun _ _ _ => .ok [], launchId := 0, newPageId := 0 }

/-- A well-formed navigate request. -/
def navCall : FnCall := { name := some "goto", args := some [("url", "https://example.com")] }

/-- Turn 1 of the concrete scenario: one navigate request. -/
def replyNav : Reply :=
  { text := some "Navigating", candText := none, functionCalls := [navCall] }

/-- Turn 2 of the concrete scenario: no requests, text Done. -/
def replyDone : Reply := { text := some "Done.", candText := some "Done.", functionCalls := [] }

/-- The concrete scenario environment: first send gets the navigate turn,
every later send gets the done turn; navigate dispatches successfully. -/
def env3 : Env :=
  { chat := fun ms => if ms.length ≤ 1 then replyNav else replyDone
    dispatch := fun _ n _ =>
      if n == "goto" then .ok [("success", JVal.b true), ("html", JVal.s "ok")]
      else .error "unexpected"
    launchId := 0, newPageId := 0 }

/-- A function call with missing name and parameters. -/
def badCall : FnCall := { name := none, args := none }

/-- A reply whose only request is invalid. -/
def replyBad : Reply := { text := some "stuck", candText := none, functionCalls := [badCall] }

/-- An environment whose model always answers with the invalid request. -/
def envB : Env :=
  { chat := fun _ => replyBad, dispatch := fun _ _ _ => .ok [], launchId := 0, newPageId := 0 }

/-- An environment whose dispatcher always raises. -/
def env5 : Env :=
  { chat := fun _ => reply0, dispatch := fun _ _ _ => .error "boom", launchId := 0,
    newPageId := 0 }

/-- A minimal loop state for step-level witnesses. -/
def st5 : LoopSt := { response := reply0, sent := [], transcript := [] }

/-- A loop state whose current reply is the invalid-request reply. -/
def stB : LoopSt := { response := replyBad, sent := [], transcript := [] }

/-- A well-formed call used with the raising dispatcher. -/
def c5Call : FnCall := { name := some "goto", args := some [] }

/-- An environment for the cleanup trace, with browser identifier 7. -/
def env10 : Env :=
  { chat := fun _ => reply0, dispatch := fun _ _ _ => .ok [], launchId := 7, newPageId := 3 }

/-- A page oracle whose operations all succeed. -/
def pageOps0 : PageOps :=
  { goto := fun _ => .ok (), waitForNetworkIdle := .ok (), content := .ok (some "c"),
    click := fun _ => .ok (), fill := fun _ _ => .ok (), isVisible := fun _ => .ok true,
    url := .ok "u", screenshot := fun _ => .ok (), keyPress := fun _ => .ok () }

/-- The loop state doTask starts the while loop with. -/
def initSt (env : Env) (task : String) : LoopSt :=
  { response := env.chat [Message.text task], sent := [Message.text task],
    transcript := [LogEvent.taskStarted task] }

/-! Helper lemmas shared by the claim theorems. -/

theorem logCand_response (st : LoopSt) : (logCand st).response = st.response := by
  unfold logCand
  rcases h : st.response.candText with _ | t
  · rfl
  · dsimp only
    split <;> rfl

theorem logCand_sent (st : LoopSt) : (logCand st).sent = st.sent := by
  unfold logCand
  rcases h : st.response.candText with _ | t
  · rfl
  · dsimp only
    split <;> rfl

theorem processCalls_missing (env : Env) (page : Nat) (c : FnCall) (rest : List FnCall)
    (st : LoopSt) (h : isMissing c = true) :
    processCalls env page (c :: rest) st =
      { st with transcript := st.transcript ++ [LogEvent.system invalidCallMsg] } := by
  simp [processCalls, h]

theorem loopStep_missing (env : Env) (page : Nat) (st : LoopSt) (c : FnCall)
    (rest : List FnCall) (hfc : st.response.functionCalls = c :: rest)
    (h : isMissing c = true) :
    loopStep env page st =
      { st with transcript := st.transcript ++
        [LogEvent.system ("Processing " ++ toString (c :: rest).length ++ " function call(s)"),
         LogEvent.system invalidCallMsg] } := by
  unfold loopStep
  rw [hfc, processCalls_missing env page c rest _ h]
  simp

theorem loop_stop (env : Env) (page : Nat) (m : Int) (fuel : Nat) (attempts : Int)
    (st : LoopSt) (hge : ¬ attempts < m) :
    loop env page m fuel attempts st = ⟨attempts, st, 0, false⟩ := by
  cases fuel with
  | zero => rw [loop]
  | succ n => rw [loop]; simp [hge]

theorem loop_succ_empty (env : Env) (page : Nat) (m : Int) (fuel : Nat) (attempts : Int)
    (st : LoopSt) (hlt : attempts < m)
    (he : (logCand st).response.functionCalls.isEmpty = true) :
    loop env page m (fuel + 1) attempts st =
      ⟨attempts,
        { logCand st with
          transcript := (logCand st).transcript ++ [LogEvent.system noCallsMsg] },
        1, true⟩ := by
  rw [loop]
  simp [hlt, he]

theorem loop_succ_cont (env : Env) (page : Nat) (m : Int) (fuel : Nat) (attempts : Int)
    (st : LoopSt) (hlt : attempts < m)
    (hne : (logCand st).response.functionCalls.isEmpty = false) :
    loop env page m (fuel + 1) attempts st =
      { loop env page m fuel (attempts + 1) (loopStep env page (logCand st)) with
        iters := (loop env page m fuel (attempts + 1) (loopStep env page (logCand st))).iters
          + 1 } := by
  rw [loop]
  simp [hlt, hne]

theorem loop_iters_le (env : Env) (page : Nat) (m : Int) :
    ∀ (fuel : Nat) (attempts : Int) (st : LoopSt),
      (loop env page m fuel attempts st).iters ≤ fuel := by
  intro fuel
  induction fuel with
  | zero => intro attempts st; simp [loop]
  | succ n ih =>
    intro attempts st
    by_cases hlt : attempts < m
    · cases he : (logCand st).response.functionCalls.isEmpty with
      | true =>
        rw [loop_succ_empty env page m n attempts st hlt he]
        exact Nat.succ_le_succ (Nat.zero_le n)
      | false =>
        rw [loop_succ_cont env page m n attempts st hlt he]
        have h := ih (attempts + 1) (loopStep env page (logCand st))
        simpa using Nat.succ_le_succ h
    · rw [loop_stop env page m (n + 1) attempts st hlt]
      simp

theorem loop_attempts_iters (env : Env) (page : Nat) (m : Int) :
    ∀ (fuel : Nat) (attempts : Int) (st : LoopSt),
      (loop env page m fuel attempts st).attempts +
          (if (loop env page m fuel attempts st).brokeEmpty then 1 else 0) =
        attempts + ((loop env page m fuel attempts st).iters : Int) := by
  intro fuel
  induction fuel with
  | zero => intro attempts st; simp [loop]
  | succ n ih =>
    intro attempts st
    by_cases hlt : attempts < m
    · cases he : (logCand st).response.functionCalls.isEmpty with
      | true => rw [loop_succ_empty env page m n attempts st hlt he]; simp
      | false =>
        rw [loop_succ_cont env page m n attempts st hlt he]
        have h := ih (attempts + 1) (loopStep env page (logCand st))
        cases hb : (loop env page m n (attempts + 1) (loopStep env page (logCand st))).brokeEmpty <;>
          simp only [hb, if_true, if_false, Bool.false_eq_true] at h ⊢ <;>
          push_cast at h ⊢ <;> omega
    · rw [loop_stop env page m (n + 1) attempts st hlt]
      simp

theorem loop_stuck (env : Env) (page : Nat) (m : Int) (c : FnCall) (cs : List FnCall)
    (hc : isMissing c = true) :
    ∀ (fuel : Nat) (attempts : Int) (st : LoopSt), st.response.functionCalls = c :: cs →
      (loop env page m fuel attempts st).st.response = st.response ∧
      (loop env page m fuel attempts st).st.sent = st.sent ∧
      (loop env page m fuel attempts st).iters = min fuel (m - attempts).toNat ∧
      (loop env page m fuel attempts st).attempts =
        attempts + ((min fuel ((m - attempts).toNat) : Nat) : Int) ∧
      (loop env page m fuel attempts st).brokeEmpty = false := by
  intro fuel
  induction fuel with
  | zero =>
    intro attempts st h
    simp [loop]
  | succ n ih =>
    intro attempts st h
    by_cases hlt : attempts < m
    · have hfc : (logCand st).response.functionCalls = c :: cs := by
        rw [logCand_response]; exact h
      have hne : (logCand st).response.functionCalls.isEmpty = false := by
        rw [hfc]; rfl
      have hstep := loopStep_missing env page (logCand st) c cs hfc hc
      have hresp : (loopStep env page (logCand st)).response = st.response := by
        rw [hstep]
        exact logCand_response st
      have hsent : (loopStep env page (logCand st)).sent = st.sent := by
        rw [hstep]
        exact logCand_sent st
      obtain ⟨h1, h2, h3, h4, h5⟩ :=
        ih (attempts + 1) (loopStep env page (logCand st)) (by rw [hresp]; exact h)
      rw [loop_succ_cont env page m n attempts st hlt hne]
      refine ⟨?_, ?_, ?_, ?_, ?_⟩
      · show (loop env page m n (attempts + 1) (loopStep env page (logCand st))).st.response
          = st.response
        rw [h1]
        exact hresp
      · show (loop env page m n (attempts + 1) (loopStep env page (logCand st))).st.sent
          = st.sent
        rw [h2]
        exact hsent
      · show (loop env page m n (attempts + 1) (loopStep env page (logCand st))).iters + 1 = _
        rw [h3]
        omega
      · show (loop env page m n (attempts + 1) (loopStep env page (logCand st))).attempts = _
        rw [h4]
        omega
      · exact h5
    · rw [loop_stop env page m (n + 1) attempts st hlt]
      refine ⟨rfl, rfl, ?_, ?_, rfl⟩
      · show (0 : Nat) = _
        omega
      · show attempts = _
        omega

theorem doTask_of_page (env : Env) (a : AgentState) (task : String) (p : Nat)
    (hp : a.page = some p) :
    (doTask env a task).2 = Except.ok
      { result := (loop env p a.maxAttempts a.maxAttempts.toNat 0 (initSt env task)).st.response.text
        attempts := (loop env p a.maxAttempts a.maxAttempts.toNat 0 (initSt env task)).attempts
        iters := (loop env p a.maxAttempts a.maxAttempts.toNat 0 (initSt env task)).iters
        brokeEmpty := (loop env p a.maxAttempts a.maxAttempts.toNat 0 (initSt env task)).brokeEmpty
        sent := (loop env p a.maxAttempts a.maxAttempts.toNat 0 (initSt env task)).st.sent
        transcript :=
          (loop env p a.maxAttempts a.maxAttempts.toNat 0 (initSt env task)).st.transcript ++
          (if (loop env p a.maxAttempts a.maxAttempts.toNat 0 (initSt env task)).attempts
              = a.maxAttempts
           then [LogEvent.system (maxReachedMsg a.maxAttempts)] else []) ++
          [LogEvent.taskCompleted
            (loop env p a.maxAttempts a.maxAttempts.toNat 0 (initSt env task)).attempts
            a.maxAttempts] } := by
  unfold doTask
  simp [hp, initSt]

theorem doTask_of_none (env : Env) (a : AgentState) (task : String) (hp : a.page = none) :
    doTask env a task = doTask env (initializeAgent env a) task := by
  unfold doTask
  simp [hp, initializeAgent]

theorem initializeAgent_of_none (env : Env) (a : AgentState) (hp : a.page = none) :
    (initializeAgent env a).page = some env.newPageId ∧
      (initializeAgent env a).maxAttempts = a.maxAttempts := by
  constructor <;> simp [initializeAgent, hp]

theorem doTask_iters_le_budget (env : Env) (a : AgentState) (task : String) :
    itersOf (doTask env a task).2 ≤ a.maxAttempts.toNat := by
  rcases hp : a.page with _ | q
  · rw [doTask_of_none env a task hp]
    obtain ⟨hp2, hmax⟩ := initializeAgent_of_none env a hp
    rw [doTask_of_page env _ task env.newPageId hp2]
    simp only [itersOf, hmax]
    exact loop_iters_le env env.newPageId a.maxAttempts a.maxAttempts.toNat 0 _
  · rw [doTask_of_page env a task q hp]
    simp only [itersOf]
    exact loop_iters_le env q a.maxAttempts a.maxAttempts.toNat 0 _

/-! Claim theorems. -/

/-- C1: for every iteration budget N (set through setMaxAttempts), every
environment — hence every sequence of model replies, with any number of
action requests per reply, and any dispatch outcomes — and every task, the
body of the while loop in doTask is entered at most N times. -/
theorem c1_outer_iterations_bounded (env : Env) (a : AgentState) (N : Nat) (task : String) :
    itersOf (doTask env (setMaxAttempts (N : Int) a) task).2 ≤ N := by
  simpa [setMaxAttempts] using doTask_iters_le_budget env (setMaxAttempts (N : Int) a) task

/-- C7 counterexample: in a run whose first reply holds no action requests,
the loop body is entered exactly once and the attempts counter is still 0 at
exit, so that body execution did not increase the counter by 1 — the claim
fails for the iteration that exits through the no-function-calls break. -/
theorem c7_counterexample :
    itersOf (doTask env2 (mkAgent (some 1)) "t").2 = 1 ∧
      attemptsOf (doTask env2 (mkAgent (some 1)) "t").2 = 0 :=
  ⟨rfl, rfl⟩

/-- C7 amended: every execution of the loop body increases the attempts
counter by exactly 1, except the final execution that exits through the
no-function-calls break, which leaves the counter unchanged; equivalently,
the counter at exit plus one-if-broke-empty equals the counter at entry plus
the number of body executions, regardless of how many action requests each
iteration processed. -/
theorem c7_attempts_per_iteration (env : Env) (page : Nat) (m : Int) (fuel : Nat)
    (attempts : Int) (st : LoopSt) :
    (loop env page m fuel attempts st).attempts +
        (if (loop env page m fuel attempts st).brokeEmpty then 1 else 0) =
      attempts + ((loop env page m fuel attempts st).iters : Int) :=
  loop_attempts_iters env page m fuel attempts st

/-- C10 counterexample: constructor without page, doTask-style initialization
launches browser 7, then a page is injected via overridePage — yet cleanup
closes browser 7, contradicting that an injected page means no close. -/
theorem c10_counterexample :
    (overridePage 9 (initializeAgent env10 (mkAgent none))).page = some 9 ∧
      (cleanup (overridePage 9 (initializeAgent env10 (mkAgent none)))).2 = [7] :=
  ⟨rfl, rfl⟩

/-- C10 amended: cleanup closes and nulls the browser exactly when the
browser field is set, and that field is set only by the initialization step
when no page was present (the constructor and overridePage never set it);
hence a page injected before any launch means cleanup performs no close, but
an overridePage after a launch does not prevent the close; in every case
cleanup leaves the page field unchanged. -/
theorem c10_cleanup_frame (a : AgentState) (p : Option Nat) (q : Nat) (env : Env) :
    (cleanup a).1.page = a.page ∧
      (cleanup a).2 = a.browser.toList ∧
      (cleanup a).1.browser = none ∧
      (mkAgent p).browser = none ∧
      (overridePage q a).browser = a.browser ∧
      (initializeAgent env a).browser =
        (if a.page.isNone then some env.launchId else a.browser) := by
  refine ⟨?_, ?_, ?_, rfl, rfl, ?_⟩
  · cases hb : a.browser <;> simp [cleanup, hb]
  · cases hb : a.browser <;> simp [cleanup, hb]
  · cases hb : a.browser <;> simp [cleanup, hb]
  · unfold initializeAgent
    split <;> rfl

/-- C4 counterexample: for an action name outside the enumerated set the
dispatcher does not raise — it returns the not-found result value. -/
theorem c4_counterexample :
    callFunction pageOps0 "unknownAction" [] = Except.ok notFoundResult := rfl

/-- C4 amended: for every action name — recognized or not — and parameters,
callFunction returns a value (never raises) that carries a boolean success
flag; for a name outside the enumerated set that value is the not-found
object with success false, rather than a raised exception. -/
theorem c4_dispatcher_returns (page : PageOps) (n : String) (p : Params) :
    (∃ r b, callFunction page n p = Except.ok r ∧
        JObj.lookup r "success" = some (JVal.b b)) ∧
      (n ∉ recognizedNames → callFunction page n p = Except.ok notFoundResult) := by
  constructor
  · unfold callFunction
    split
    all_goals
      first
        | exact ⟨_, _, rfl, rfl⟩
        | (simp only [callGoto, callClick, callType, callCheckSelector, callGetHtml,
             callCheckCurrentUrl, callScreenshot, callKeyPress]
           split <;> first
             | exact ⟨_, true, rfl, rfl⟩
             | exact ⟨_, false, rfl, rfl⟩)
  · intro hn
    unfold callFunction
    split
    all_goals
      first
        | rfl
        | simp [recognizedNames] at hn

/-- C4 witness: the amended theorem at concrete inputs — the unknown name
frobnicate yields the not-found value, and the recognized name goto yields a
value carrying a success flag. -/
theorem c4_witness :
    callFunction pageOps0 "frobnicate" [] = Except.ok notFoundResult ∧
      (∃ r b, callFunction pageOps0 "goto" [] = Except.ok r ∧
        JObj.lookup r "success" = some (JVal.b b)) :=
  ⟨(c4_dispatcher_returns pageOps0 "frobnicate" []).2 (by decide),
   (c4_dispatcher_returns pageOps0 "goto" []).1⟩

/-- C2 counterexample: a run whose first reply holds no action requests (the
middle conjunct) returns that reply text, but the attempts counter at exit is
not 1 — the break fires before the increment, leaving it at 0. -/
theorem c2_counterexample :
    resultOf (doTask env2 (mkAgent (some 1)) "t").2 = some "hi" ∧
      (env2.chat [Message.text "t"]).functionCalls = [] ∧
      attemptsOf (doTask env2 (mkAgent (some 1)) "t").2 ≠ 1 :=
  ⟨rfl, rfl, by decide⟩

/-- C2 amended: for every task whose first model reply contains no action
requests, under any positive budget N, doTask enters the loop body exactly
once, exits through the no-function-calls break before the counter increment
— so the attempts counter equals 0 (not 1) at exit — and returns the first
reply text. -/
theorem c2_first_reply_no_calls (env : Env) (p : Nat) (task : String) (N : Nat)
    (hN : 1 ≤ N) (h : (env.chat [Message.text task]).functionCalls = []) :
    resultOf (doTask env (setMaxAttempts (N : Int) (mkAgent (some p))) task).2 =
        (env.chat [Message.text task]).text ∧
      attemptsOf (doTask env (setMaxAttempts (N : Int) (mkAgent (some p))) task).2 = 0 ∧
      itersOf (doTask env (setMaxAttempts (N : Int) (mkAgent (some p))) task).2 = 1 := by
  have hp : (setMaxAttempts (N : Int) (mkAgent (some p))).page = some p := rfl
  rw [doTask_of_page env _ task p hp]
  have hM : (setMaxAttempts (N : Int) (mkAgent (some p))).maxAttempts = (N : Int) := rfl
  rw [hM, Int.toNat_natCast N]
  obtain ⟨n, rfl⟩ : ∃ n, N = n + 1 := ⟨N - 1, by omega⟩
  have hlt : (0 : Int) < ((n + 1 : Nat) : Int) := by exact_mod_cast Nat.succ_pos n
  have hie : (logCand (initSt env task)).response.functionCalls.isEmpty = true := by
    rw [logCand_response]
    simp [initSt, h]
  rw [loop_succ_empty env p ((n + 1 : Nat) : Int) n 0 (initSt env task) hlt hie]
  refine ⟨?_, rfl, rfl⟩
  simp [resultOf, logCand_response, initSt]

/-- C2 witness: the amended theorem at a concrete environment with budget 1. -/
theorem c2_witness :
    resultOf (doTask env2 (setMaxAttempts ((1 : Nat) : Int) (mkAgent (some 1))) "t").2 =
        (env2.chat [Message.text "t"]).text ∧
      attemptsOf (doTask env2 (setMaxAttempts ((1 : Nat) : Int) (mkAgent (some 1))) "t").2 = 0 ∧
      itersOf (doTask env2 (setMaxAttempts ((1 : Nat) : Int) (mkAgent (some 1))) "t").2 = 1 :=
  c2_first_reply_no_calls env2 1 "t" 1 (by decide) rfl

/-- C3 counterexample: in the concrete scenario — turn 1 one successful
navigate request, turn 2 no requests with text Done. — doTask returns Done.
but the attempts counter at exit is not 2. -/
theorem c3_counterexample :
    resultOf (doTask env3 (mkAgent (some 1)) "navigate to example.com").2 = some "Done." ∧
      attemptsOf (doTask env3 (mkAgent (some 1)) "navigate to example.com").2 ≠ 2 :=
  ⟨rfl, by decide⟩

/-- C3 amended: in the concrete scenario — turn 1 one successful navigate
request, turn 2 no requests with text Done. — doTask returns Done. and the
attempts counter equals 1 at exit (the loop body ran twice, but the second
execution exits through the break without incrementing). -/
theorem c3_concrete_scenario :
    resultOf (doTask env3 (mkAgent (some 1)) "navigate to example.com").2 = some "Done." ∧
      attemptsOf (doTask env3 (mkAgent (some 1)) "navigate to example.com").2 = 1 ∧
      itersOf (doTask env3 (mkAgent (some 1)) "navigate to example.com").2 = 2 :=
  ⟨rfl, rfl, rfl⟩

/-- C5: whenever the batch processor of doTask reaches a request with a valid
name and parameters whose dispatch raises, the exception is caught at the
dispatch boundary: the plain-text diagnostic embedding the action name and
error detail is sent into the chat, the resulting reply becomes the current
one, and processing continues with the remaining requests of the batch — the
processor is a total function into loop states, so nothing re-raises to the
caller. -/
theorem c5_dispatch_raise_caught (env : Env) (page : Nat) (c : FnCall) (rest : List FnCall)
    (st : LoopSt) (n : String) (args : Params) (e : String)
    (hn : c.name = some n) (hne : n ≠ "") (ha : c.args = some args)
    (hd : env.dispatch page n args = Except.error e) :
    processCalls env page (c :: rest) st =
      processCalls env page rest
        { response := env.chat (st.sent ++ [Message.text (errorMsgFor n e)])
          sent := st.sent ++ [Message.text (errorMsgFor n e)]
          transcript := st.transcript ++
            [LogEvent.functionCall n args, LogEvent.md (errorMsgFor n e)] } := by
  have hm : isMissing c = false := by
    simp [isMissing, hn, ha, hne]
  simp only [processCalls]
  simp [hm, hn, ha, hd, sendMessage]

/-- C5 witness: the theorem at a concrete raising dispatcher — the error text
is sent, the reply captured, and the (empty) remainder of the batch is
processed normally. -/
theorem c5_witness :
    processCalls env5 1 [c5Call] st5 =
      processCalls env5 1 []
        { response := env5.chat [Message.text (errorMsgFor "goto" "boom")]
          sent := [Message.text (errorMsgFor "goto" "boom")]
          transcript := [LogEvent.functionCall "goto" [],
            LogEvent.md (errorMsgFor "goto" "boom")] } :=
  c5_dispatch_raise_caught env5 1 c5Call [] st5 "goto" [] "boom" rfl (by decide) rfl rfl

/-- C6: when the batch processor reaches a request with missing name or
parameters, the diagnostic is logged and the remaining requests of the batch
are dropped with the loop state otherwise untouched, and the outer loop is
not aborted: an iteration whose batch starts with such a request completes
and the loop recurses into the next iteration with the counter incremented. -/
theorem c6_invalid_call (env : Env) (page : Nat) (c : FnCall) (rest : List FnCall)
    (st : LoopSt) (m : Int) (fuel : Nat) (attempts : Int)
    (hc : isMissing c = true) (hlt : attempts < m)
    (hfc : st.response.functionCalls = c :: rest) :
    processCalls env page (c :: rest) st =
      { st with transcript := st.transcript ++ [LogEvent.system invalidCallMsg] } ∧
      ∃ st2, st2.response = st.response ∧ st2.sent = st.sent ∧
        loop env page m (fuel + 1) attempts st =
          { loop env page m fuel (attempts + 1) st2 with
            iters := (loop env page m fuel (attempts + 1) st2).iters + 1 } := by
  have hfc2 : (logCand st).response.functionCalls = c :: rest := by
    rw [logCand_response]; exact hfc
  refine ⟨processCalls_missing env page c rest st hc,
    loopStep env page (logCand st), ?_, ?_, ?_⟩
  · rw [loopStep_missing env page (logCand st) c rest hfc2 hc]
    exact logCand_response st
  · rw [loopStep_missing env page (logCand st) c rest hfc2 hc]
    exact logCand_sent st
  · exact loop_succ_cont env page m fuel attempts st hlt (by rw [hfc2]; rfl)

/-- C6 witness: the theorem at a concrete invalid request with a nonempty
budget — the diagnostic is appended, the batch stops, and the loop recurses. -/
theorem c6_witness :
    processCalls envB 1 [badCall] stB =
      { stB with transcript := stB.transcript ++ [LogEvent.system invalidCallMsg] } ∧
      ∃ st2, st2.response = stB.response ∧ st2.sent = stB.sent ∧
        loop envB 1 5 (3 + 1) 0 stB =
          { loop envB 1 5 3 (0 + 1) st2 with
            iters := (loop envB 1 5 3 (0 + 1) st2).iters + 1 } :=
  c6_invalid_call envB 1 badCall [] stB 5 3 0 rfl (by decide) rfl

/-- C8: when the first reply to the task starts with an invalid action
request, nothing beyond the task is ever sent into the chat, so the same
reply is re-examined on every iteration: doTask runs exactly N = maxAttempts
iterations, the counter reaches N, and the returned text is that same reply
text. -/
theorem c8_invalid_first_call_spins (env : Env) (p : Nat) (task : String) (N : Nat)
    (c : FnCall) (cs : List FnCall)
    (hr : (env.chat [Message.text task]).functionCalls = c :: cs)
    (hc : isMissing c = true) :
    sentOf (doTask env (setMaxAttempts (N : Int) (mkAgent (some p))) task).2 =
        [Message.text task] ∧
      itersOf (doTask env (setMaxAttempts (N : Int) (mkAgent (some p))) task).2 = N ∧
      attemptsOf (doTask env (setMaxAttempts (N : Int) (mkAgent (some p))) task).2 = (N : Int) ∧
      resultOf (doTask env (setMaxAttempts (N : Int) (mkAgent (some p))) task).2 =
        (env.chat [Message.text task]).text := by
  have hp : (setMaxAttempts (N : Int) (mkAgent (some p))).page = some p := rfl
  rw [doTask_of_page env _ task p hp]
  have hM : (setMaxAttempts (N : Int) (mkAgent (some p))).maxAttempts = (N : Int) := rfl
  rw [hM, Int.toNat_natCast N]
  obtain ⟨h1, h2, h3, h4, h5⟩ :=
    loop_stuck env p ((N : Int)) c cs hc N 0 (initSt env task) (by simp [initSt, hr])
  refine ⟨?_, ?_, ?_, ?_⟩
  · simp only [sentOf]
    rw [h2]
    rfl
  · simp only [itersOf]
    rw [h3]
    simp
  · simp only [attemptsOf]
    rw [h4]
    simp
  · simp only [resultOf]
    rw [h1]
    rfl

/-- C8 witness: the theorem at a concrete environment that always replies
with the invalid request, budget 3. -/
theorem c8_witness :
    sentOf (doTask envB (setMaxAttempts ((3 : Nat) : Int) (mkAgent (some 1))) "t").2 =
        [Message.text "t"] ∧
      itersOf (doTask envB (setMaxAttempts ((3 : Nat) : Int) (mkAgent (some 1))) "t").2 = 3 ∧
      attemptsOf (doTask envB (setMaxAttempts ((3 : Nat) : Int) (mkAgent (some 1))) "t").2 =
        ((3 : Nat) : Int) ∧
      resultOf (doTask envB (setMaxAttempts ((3 : Nat) : Int) (mkAgent (some 1))) "t").2 =
        (envB.chat [Message.text "t"]).text :=
  c8_invalid_first_call_spins envB 1 "t" 3 badCall [] rfl rfl

theorem doTask_zero_budget_of_page (env : Env) (a : AgentState) (task : String) (p : Nat)
    (hp : a.page = some p) (hm : a.maxAttempts ≤ 0) :
    sentOf (doTask env a task).2 = [Message.text task] ∧
      itersOf (doTask env a task).2 = 0 ∧
      attemptsOf (doTask env a task).2 = 0 ∧
      resultOf (doTask env a task).2 = (env.chat [Message.text task]).text := by
  rw [doTask_of_page env a task p hp]
  have h0 : a.maxAttempts.toNat = 0 := Int.toNat_of_nonpos hm
  rw [h0]
  simp [sentOf, itersOf, attemptsOf, resultOf, loop, initSt]

/-- C9: for every budget m ≤ 0 set through setMaxAttempts, doTask still sends
the task into the chat — exactly that one message — enters the loop body zero
times (so no action is ever dispatched), and returns the first reply text. -/
theorem c9_nonpositive_budget (env : Env) (a : AgentState) (task : String) (m : Int)
    (hm : m ≤ 0) :
    sentOf (doTask env (setMaxAttempts m a) task).2 = [Message.text task] ∧
      itersOf (doTask env (setMaxAttempts m a) task).2 = 0 ∧
      attemptsOf (doTask env (setMaxAttempts m a) task).2 = 0 ∧
      resultOf (doTask env (setMaxAttempts m a) task).2 =
        (env.chat [Message.text task]).text := by
  rcases hp : (setMaxAttempts m a).page with _ | q
  · rw [doTask_of_none env _ task hp]
    obtain ⟨hp2, hmax⟩ := initializeAgent_of_none env _ hp
    exact doTask_zero_budget_of_page env _ task env.newPageId hp2 (by rw [hmax]; exact hm)
  · exact doTask_zero_budget_of_page env _ task q hp hm

/-- C9 witness: the theorem at the concrete scenario environment with budget
minus three. -/
theorem c9_witness :
    sentOf (doTask env3 (setMaxAttempts (-3) (mkAgent (some 1))) "t").2 =
        [Message.text "t"] ∧
      itersOf (doTask env3 (setMaxAttempts (-3) (mkAgent (some 1))) "t").2 = 0 ∧
      attemptsOf (doTask env3 (setMaxAttempts (-3) (mkAgent (some 1))) "t").2 = 0 ∧
      resultOf (doTask env3 (setMaxAttempts (-3) (mkAgent (some 1))) "t").2 =
        (env3.chat [Message.text "t"]).text :=
  c9_nonpositive_budget env3 (mkAgent (some 1)) "t" (-3) (by decide)

end Scraper
